import Mathlib

/-!
Verification of the MaterialData core of the Magnum repository
(src/src/Magnum/Trade/MaterialData.h): the `MaterialAttributeType` tag
enumeration, the compile-time type-to-tag mapping
`Implementation::materialAttributeTypeFor`, the tag-to-byte-size function
`Implementation::materialAttributeTypeSize`, the fixed-size
`MaterialAttributeData` record and the `MaterialData` attribute list.

The header declares, but does not define, the private
`MaterialAttributeData` constructor, `materialAttributeTypeSize` and the
accessors of `MaterialData`; those parts are modelled from the spec and
are marked as such in their doc comments.  Everything else is translated
directly from the header.
-/

namespace Magnum.Trade

/-- The `MaterialAttribute` enumeration from the header: the predefined
semantic attribute names, in source order (`AlphaMask` first,
`Shininess` last). -/
inductive MaterialAttribute where
  | AlphaMask
  | AlphaBlend
  | DoubleSided
  | AmbientColor
  | AmbientTexture
  | AmbientCoordinateSet
  | AmbientTextureMatrix
  | DiffuseColor
  | DiffuseTexture
  | DiffuseCoordinateSet
  | DiffuseTextureMatrix
  | SpecularColor
  | SpecularTexture
  | SpecularCoordinateSet
  | SpecularTextureMatrix
  | NormalTexture
  | NormalCoordinateSet
  | NormalTextureMatrix
  | CoordinateSet
  | TextureMatrix
  | Shininess
deriving DecidableEq

/-- The `MaterialAttributeType` enumeration from the header, in source
order.  In the source it is backed by `UnsignedByte` with `Bool = 1` and
the remaining enumerators taking the successive values (zero is reserved
for an invalid value and is not a member); `Matrix4x4` is absent. -/
inductive MaterialAttributeType where
  | Bool
  | Float
  | UnsignedInt
  | Int
  | Vector2
  | Vector2ui
  | Vector2i
  | Vector3
  | Vector3ui
  | Vector3i
  | Vector4
  | Vector4ui
  | Vector4i
  | Matrix2x2
  | Matrix2x3
  | Matrix2x4
  | Matrix3x2
  | Matrix3x3
  | Matrix3x4
  | Matrix4x2
  | Matrix4x3
deriving DecidableEq

/-- The numeric `UnsignedByte` value of each `MaterialAttributeType`
enumerator: `Bool = 1` is written in the source and C++ enumeration
semantics gives every following enumerator the next value. -/
def MaterialAttributeType.toUnsignedByte : MaterialAttributeType → Nat
  | .Bool => 1
  | .Float => 2
  | .UnsignedInt => 3
  | .Int => 4
  | .Vector2 => 5
  | .Vector2ui => 6
  | .Vector2i => 7
  | .Vector3 => 8
  | .Vector3ui => 9
  | .Vector3i => 10
  | .Vector4 => 11
  | .Vector4ui => 12
  | .Vector4i => 13
  | .Matrix2x2 => 14
  | .Matrix2x3 => 15
  | .Matrix2x4 => 16
  | .Matrix3x2 => 17
  | .Matrix3x3 => 18
  | .Matrix3x4 => 19
  | .Matrix4x2 => 20
  | .Matrix4x3 => 21

/-- The identifier of each `MaterialAttributeType` enumerator, as spelled
in the source. -/
def materialAttributeTypeName : MaterialAttributeType → String
  | .Bool => "Bool"
  | .Float => "Float"
  | .UnsignedInt => "UnsignedInt"
  | .Int => "Int"
  | .Vector2 => "Vector2"
  | .Vector2ui => "Vector2ui"
  | .Vector2i => "Vector2i"
  | .Vector3 => "Vector3"
  | .Vector3ui => "Vector3ui"
  | .Vector3i => "Vector3i"
  | .Vector4 => "Vector4"
  | .Vector4ui => "Vector4ui"
  | .Vector4i => "Vector4i"
  | .Matrix2x2 => "Matrix2x2"
  | .Matrix2x3 => "Matrix2x3"
  | .Matrix2x4 => "Matrix2x4"
  | .Matrix3x2 => "Matrix3x2"
  | .Matrix3x3 => "Matrix3x3"
  | .Matrix3x4 => "Matrix3x4"
  | .Matrix4x2 => "Matrix4x2"
  | .Matrix4x3 => "Matrix4x3"

/-- All members of `MaterialAttributeType`, in source order. -/
def allMaterialAttributeTypes : List MaterialAttributeType :=
  [.Bool, .Float, .UnsignedInt, .Int,
   .Vector2, .Vector2ui, .Vector2i,
   .Vector3, .Vector3ui, .Vector3i,
   .Vector4, .Vector4ui, .Vector4i,
   .Matrix2x2, .Matrix2x3, .Matrix2x4,
   .Matrix3x2, .Matrix3x3, .Matrix3x4,
   .Matrix4x2, .Matrix4x3]

instance : Fintype MaterialAttributeType :=
  ⟨⟨allMaterialAttributeTypes, by decide⟩, by intro t; cases t <;> decide⟩

/-- The supported host value types: exactly the types for which the header
specializes `Implementation::materialAttributeTypeFor` — `bool` plus the
twenty Magnum math types listed in the `_c` macro expansion. -/
inductive HostType where
  | bool
  | Float
  | UnsignedInt
  | Int
  | Vector2
  | Vector2ui
  | Vector2i
  | Vector3
  | Vector3ui
  | Vector3i
  | Vector4
  | Vector4ui
  | Vector4i
  | Matrix2x2
  | Matrix2x3
  | Matrix2x4
  | Matrix3x2
  | Matrix3x3
  | Matrix3x4
  | Matrix4x2
  | Matrix4x3
deriving DecidableEq

/-- The name of each supported host type, as spelled in the source's
specializations of `materialAttributeTypeFor`. -/
def hostTypeName : HostType → String
  | .bool => "bool"
  | .Float => "Float"
  | .UnsignedInt => "UnsignedInt"
  | .Int => "Int"
  | .Vector2 => "Vector2"
  | .Vector2ui => "Vector2ui"
  | .Vector2i => "Vector2i"
  | .Vector3 => "Vector3"
  | .Vector3ui => "Vector3ui"
  | .Vector3i => "Vector3i"
  | .Vector4 => "Vector4"
  | .Vector4ui => "Vector4ui"
  | .Vector4i => "Vector4i"
  | .Matrix2x2 => "Matrix2x2"
  | .Matrix2x3 => "Matrix2x3"
  | .Matrix2x4 => "Matrix2x4"
  | .Matrix3x2 => "Matrix3x2"
  | .Matrix3x3 => "Matrix3x3"
  | .Matrix3x4 => "Matrix3x4"
  | .Matrix4x2 => "Matrix4x2"
  | .Matrix4x3 => "Matrix4x3"

/-- All supported host types, in the order of the source's
specializations (`Float` … `Matrix4x3` from the `_c` macro, then the
separate `bool` specialization). -/
def allHostTypes : List HostType :=
  [.Float, .UnsignedInt, .Int,
   .Vector2, .Vector2ui, .Vector2i,
   .Vector3, .Vector3ui, .Vector3i,
   .Vector4, .Vector4ui, .Vector4i,
   .Matrix2x2, .Matrix2x3, .Matrix2x4,
   .Matrix3x2, .Matrix3x3, .Matrix3x4,
   .Matrix4x2, .Matrix4x3, .bool]

instance : Fintype HostType :=
  ⟨⟨allHostTypes, by decide⟩, by intro t; cases t <;> decide⟩

/-- `Implementation::materialAttributeTypeFor<T>()` from the header: each
specialization returns the `MaterialAttributeType` enumerator of the same
name, and the `bool` specialization returns
`MaterialAttributeType::Bool`. -/
def materialAttributeTypeFor : HostType → MaterialAttributeType
  | .bool => .Bool
  | .Float => .Float
  | .UnsignedInt => .UnsignedInt
  | .Int => .Int
  | .Vector2 => .Vector2
  | .Vector2ui => .Vector2ui
  | .Vector2i => .Vector2i
  | .Vector3 => .Vector3
  | .Vector3ui => .Vector3ui
  | .Vector3i => .Vector3i
  | .Vector4 => .Vector4
  | .Vector4ui => .Vector4ui
  | .Vector4i => .Vector4i
  | .Matrix2x2 => .Matrix2x2
  | .Matrix2x3 => .Matrix2x3
  | .Matrix2x4 => .Matrix2x4
  | .Matrix3x2 => .Matrix3x2
  | .Matrix3x3 => .Matrix3x3
  | .Matrix3x4 => .Matrix3x4
  | .Matrix4x2 => .Matrix4x2
  | .Matrix4x3 => .Matrix4x3

/-- Modelled from the spec: `sizeof(T)` for each supported host type.
The Magnum math types themselves are not part of this header; the spec
fixes every listed kind's scalar component at 4 bytes (`Bool` = 1 byte),
a `VectorN` at N components and a `MatrixCxR` at C·R components, giving
e.g. Bool = 1, Float = 4, Vector4 = 16, Matrix3x4 = 48. -/
def hostTypeSize : HostType → Nat
  | .bool => 1
  | .Float => 4
  | .UnsignedInt => 4
  | .Int => 4
  | .Vector2 => 8
  | .Vector2ui => 8
  | .Vector2i => 8
  | .Vector3 => 12
  | .Vector3ui => 12
  | .Vector3i => 12
  | .Vector4 => 16
  | .Vector4ui => 16
  | .Vector4i => 16
  | .Matrix2x2 => 16
  | .Matrix2x3 => 24
  | .Matrix2x4 => 32
  | .Matrix3x2 => 24
  | .Matrix3x3 => 36
  | .Matrix3x4 => 48
  | .Matrix4x2 => 32
  | .Matrix4x3 => 48

/-- Modelled from the spec: `Implementation::materialAttributeTypeSize`
is only declared in the header (its body lives outside this tree).  The
spec requires it to be total over all non-zero tags, to equal the native
byte size of the host type mapped to each tag, and to treat the zero
sentinel (or any unrecognized value) as a fatal programming error, which
the model renders as `none`.  The argument is the raw `UnsignedByte`
value of the tag. -/
def materialAttributeTypeSize : Nat → Option Nat
  | 1 => some 1
  | 2 => some 4
  | 3 => some 4
  | 4 => some 4
  | 5 => some 8
  | 6 => some 8
  | 7 => some 8
  | 8 => some 12
  | 9 => some 12
  | 10 => some 12
  | 11 => some 16
  | 12 => some 16
  | 13 => some 16
  | 14 => some 16
  | 15 => some 24
  | 16 => some 32
  | 17 => some 24
  | 18 => some 36
  | 19 => some 48
  | 20 => some 32
  | 21 => some 48
  | _ => none

/-! ## The record layout

`MaterialAttributeData` ends with
`CORRADE_ALIGNAS(8) MaterialAttributeType _type; char _data[63];`:
a one-byte tag whose alignment requirement is raised to 8, immediately
followed by a 63-byte `char` array.  The constants below spell out the
C++ layout of that struct. -/

/-- `sizeof(MaterialAttributeType)`: the enum is backed by
`UnsignedByte`, so the `_type` field itself is one byte. -/
def typeFieldSize : Nat := 1

/-- `sizeof(_data)`: the `char _data[63]` array of the record. -/
def dataArraySize : Nat := 63

/-- The alignment `CORRADE_ALIGNAS(8)` imposes on the `_type` member and
hence on the whole struct. -/
def recordAlignment : Nat := 8

/-- Offset of `_type` in the record: it is the first member. -/
def typeFieldOffset : Nat := 0

/-- Offset of `_data` in the record: `char` needs no alignment, so it
starts right after the one-byte `_type` with no padding between them. -/
def dataFieldOffset : Nat := typeFieldOffset + typeFieldSize

/-- Bytes of the record taken up by the tag field together with any
padding before the payload area: everything before `_data`. -/
def tagRegionBytes : Nat := dataFieldOffset

/-- `sizeof(MaterialAttributeData)`: the last member ends at offset
`dataFieldOffset + dataArraySize` and the total is rounded up to the
struct's 8-byte alignment. -/
def recordSize : Nat :=
  ((dataFieldOffset + dataArraySize + recordAlignment - 1) / recordAlignment)
    * recordAlignment

/-- The record bytes usable for the name encoding and the value payload
combined: per the spec's glossary, the record's total size minus the
space reserved for the tag field and its alignment padding — on this
layout, exactly the `_data` array. -/
def usablePayloadBytes : Nat := recordSize - tagRegionBytes

/-! ## The record and its construction -/

/-- The `MaterialAttributeData` record: the `_type` tag field and the
`_data` byte buffer (a list of byte values standing for `char [63]`;
every record the constructor produces has `_data.length = 63`). -/
structure MaterialAttributeData where
  _type : MaterialAttributeType
  _data : List Nat
deriving DecidableEq

/-- `MaterialAttributeData::type()` from the header: returns `_type`. -/
def MaterialAttributeData.type (d : MaterialAttributeData) :
    MaterialAttributeType :=
  d._type

/-- Modelled from the spec: the construction-time error taxonomy.  The
only recoverable construction error is the size-budget violation. -/
inductive ConstructError where
  | OversizedAttribute
deriving DecidableEq

/-- Modelled from the spec: the private
`MaterialAttributeData(StringView, MaterialAttributeType, size, value)`
constructor, which the header declares without a body.  Per the spec it
verifies `nameEncodedSize(name) + valueSize ≤ usablePayloadBytes`,
failing with `OversizedAttribute` when the check fails, and otherwise
copies the name bytes into the front of the fixed buffer and the value's
`typeSize` raw bytes at the end of the buffer (an offset that satisfies
the value's natural alignment, since every value size and the record
size are multiples of the 4-byte scalar alignment, and `Bool` needs
none), zero-filling the reserved bytes in between. -/
def mkMaterialAttributeData (name : List Nat) (type : MaterialAttributeType)
    (typeSize : Nat) (value : List Nat) :
    Except ConstructError MaterialAttributeData :=
  if name.length + typeSize ≤ usablePayloadBytes then
    .ok ⟨type,
      name ++ List.replicate (usablePayloadBytes - name.length - typeSize) 0
        ++ value⟩
  else
    .error .OversizedAttribute

/-- The public constructor
`MaterialAttributeData(Containers::StringView name, const T& value)` from
the header: it delegates to the private constructor with
`Implementation::materialAttributeTypeFor<T>()` and `sizeof(T)`.  The
value is its list of raw bytes (of length `sizeof(T)` for an actual
value of type `T`). -/
def materialAttributeDataFromString (name : List Nat) (T : HostType)
    (value : List Nat) : Except ConstructError MaterialAttributeData :=
  mkMaterialAttributeData name (materialAttributeTypeFor T) (hostTypeSize T)
    value

/-- Modelled from the spec: the canonical text of a predefined semantic
attribute name (the conversion code is not in the header; the spec says
a predefined name is "converted to its canonical text"). -/
def materialAttributeName : MaterialAttribute → String
  | .AlphaMask => "AlphaMask"
  | .AlphaBlend => "AlphaBlend"
  | .DoubleSided => "DoubleSided"
  | .AmbientColor => "AmbientColor"
  | .AmbientTexture => "AmbientTexture"
  | .AmbientCoordinateSet => "AmbientCoordinateSet"
  | .AmbientTextureMatrix => "AmbientTextureMatrix"
  | .DiffuseColor => "DiffuseColor"
  | .DiffuseTexture => "DiffuseTexture"
  | .DiffuseCoordinateSet => "DiffuseCoordinateSet"
  | .DiffuseTextureMatrix => "DiffuseTextureMatrix"
  | .SpecularColor => "SpecularColor"
  | .SpecularTexture => "SpecularTexture"
  | .SpecularCoordinateSet => "SpecularCoordinateSet"
  | .SpecularTextureMatrix => "SpecularTextureMatrix"
  | .NormalTexture => "NormalTexture"
  | .NormalCoordinateSet => "NormalCoordinateSet"
  | .NormalTextureMatrix => "NormalTextureMatrix"
  | .CoordinateSet => "CoordinateSet"
  | .TextureMatrix => "TextureMatrix"
  | .Shininess => "Shininess"

/-- The bytes of a string (names are ASCII identifiers, so the code
points are the bytes). -/
def stringBytes (s : String) : List Nat := s.data.map Char.toNat

/-- The public constructor
`MaterialAttributeData(MaterialAttribute name, const T& value)` from the
header: it delegates to the same private constructor with the same
`Implementation::materialAttributeTypeFor<T>()` tag and the same
`sizeof(T)`, the semantic name standing for its canonical text. -/
def materialAttributeDataFromSemantic (name : MaterialAttribute)
    (T : HostType) (value : List Nat) :
    Except ConstructError MaterialAttributeData :=
  mkMaterialAttributeData (stringBytes (materialAttributeName name))
    (materialAttributeTypeFor T) (hostTypeSize T) value

/-- Modelled from the spec: decoding a record's payload as a host type
`T`.  A consumer may request the value only if `kindOf(T)` agrees with
the stored tag (a mismatch is a contract violation, rendered `none`);
reading then reproduces the exact `sizeof(T)` bytes written at
construction — the last `sizeof(T)` bytes of the buffer, where the
constructor placed them. -/
def decodeAs (T : HostType) (d : MaterialAttributeData) :
    Option (List Nat) :=
  if d._type = materialAttributeTypeFor T then
    some (d._data.drop (usablePayloadBytes - hostTypeSize T))
  else
    none

/-! ## The material (attribute list) -/

/-- The `MaterialData` class from the header: it takes ownership of an
already-built array of records and stores it as `_data`.  Its accessors
(a count and indexed access, per the spec's §4.3 contract) are modelled
from the spec, the header declaring only the constructor. -/
structure MaterialData where
  _data : List MaterialAttributeData
deriving DecidableEq

/-- `MaterialData(Containers::Array<MaterialAttributeData>&&)`: moves the
caller's sequence in unchanged — no validation, no deduplication. -/
def mkMaterialData (data : List MaterialAttributeData) : MaterialData :=
  ⟨data⟩

/-- Modelled from the spec: the attribute count of a material (§4.3:
"expose (at minimum) its size"). -/
def MaterialData.attributeCount (m : MaterialData) : Nat :=
  m._data.length

/-- Modelled from the spec: indexed access to a material's records
(§4.3: "indexed access"); out-of-range indices give `none`. -/
def MaterialData.attribute (m : MaterialData) (i : Nat) :
    Option MaterialAttributeData :=
  m._data.get? i

/-! ## Theorems -/

/-- Claim C9: the `MaterialAttributeType` enumeration assigns contiguous
numeric values from `Bool = 1` up through `Matrix4x3 = 21` with no gaps;
zero is not a member of the enumeration, and `Matrix4x4` and every
64-bit (`Double`) kind — which by Magnum convention would be named
`Double` or carry a `d` suffix (byte 100) — are absent from it. -/
theorem materialAttributeType_enumeration :
    allMaterialAttributeTypes.map MaterialAttributeType.toUnsignedByte
      = List.range' 1 21
    ∧ MaterialAttributeType.Bool.toUnsignedByte = 1
    ∧ MaterialAttributeType.Matrix4x3.toUnsignedByte = 21
    ∧ (∀ t : MaterialAttributeType, t ∈ allMaterialAttributeTypes)
    ∧ (∀ t : MaterialAttributeType, t.toUnsignedByte ≠ 0)
    ∧ "Matrix4x4" ∉ allMaterialAttributeTypes.map materialAttributeTypeName
    ∧ (∀ t : MaterialAttributeType,
        (stringBytes (materialAttributeTypeName t)).take 6
          ≠ stringBytes "Double"
        ∧ (stringBytes (materialAttributeTypeName t)).getLast? ≠ some 100) := by
  refine ⟨by decide, rfl, rfl, by intro t; cases t <;> decide,
    by intro t; cases t <;> decide, by decide, ?_⟩
  intro t
  cases t <;> exact ⟨by decide, by decide⟩

/-- Claim C4: the type-to-tag mapping `materialAttributeTypeFor` is
total over the supported host types (`bool`, the three scalar numeric
types, the nine vector types, the nine non-square matrix types), maps
each supported type to exactly one non-zero tag, never yields the zero
tag, and has no mapping for unsupported host types: `Matrix4x4` and the
64-bit (`Double`) types are not among the specialized host types. -/
theorem materialAttributeTypeFor_total_nonzero :
    (∀ T : HostType,
      ∃! k : MaterialAttributeType, materialAttributeTypeFor T = k)
    ∧ (∀ T : HostType, (materialAttributeTypeFor T).toUnsignedByte ≠ 0)
    ∧ (∀ T : HostType, T ∈ allHostTypes)
    ∧ allHostTypes.length = 21
    ∧ "Matrix4x4" ∉ allHostTypes.map hostTypeName
    ∧ "Double" ∉ allHostTypes.map hostTypeName
    ∧ (∀ T : HostType,
        (stringBytes (hostTypeName T)).getLast? ≠ some 100) := by
  refine ⟨fun T => ⟨materialAttributeTypeFor T, rfl, fun y h => h.symm⟩,
    by intro T; cases T <;> decide, by intro T; cases T <;> decide,
    rfl, by decide, by decide, ?_⟩
  intro T
  cases T <;> decide

/-- Claim C5: for every non-zero tag `k`, `materialAttributeTypeSize k`
equals the native byte size of the host type that maps to `k` — in
particular Bool = 1, Float = 4, Vector4 = 16, Matrix3x4 = 48 — and no
tag's byte size exceeds the 48-byte cap. -/
theorem materialAttributeTypeSize_agreement :
    (∀ T : HostType,
      materialAttributeTypeSize (materialAttributeTypeFor T).toUnsignedByte
        = some (hostTypeSize T))
    ∧ materialAttributeTypeSize
        MaterialAttributeType.Bool.toUnsignedByte = some 1
    ∧ materialAttributeTypeSize
        MaterialAttributeType.Float.toUnsignedByte = some 4
    ∧ materialAttributeTypeSize
        MaterialAttributeType.Vector4.toUnsignedByte = some 16
    ∧ materialAttributeTypeSize
        MaterialAttributeType.Matrix3x4.toUnsignedByte = some 48
    ∧ (∀ t : MaterialAttributeType,
        (materialAttributeTypeSize t.toUnsignedByte).getD 0 ≤ 48) := by
  refine ⟨by intro T; cases T <;> rfl, rfl, rfl, rfl, rfl, ?_⟩
  intro t
  cases t <;> decide

/-- Claim C7: calling `materialAttributeTypeSize` with the zero
(invalid) tag is a fatal error (`none` in the model), and the error
branch is unreachable for every non-zero tag of the enumeration. -/
theorem materialAttributeTypeSize_zero_invalid :
    materialAttributeTypeSize 0 = none
    ∧ (∀ t : MaterialAttributeType,
        (materialAttributeTypeSize t.toUnsignedByte).isSome = true) := by
  refine ⟨rfl, ?_⟩
  intro t
  cases t <;> rfl

/-- Claim C3, counterexample: on the source's layout —
`CORRADE_ALIGNAS(8) MaterialAttributeType _type; char _data[63]` — the
tag region is a single byte with no padding before the data array and
63 bytes remain usable, so the claimed "tag occupies 8 bytes, 56 usable
bytes" is false. -/
theorem record_layout_counterexample :
    ¬ (recordSize = 64 ∧ tagRegionBytes = 8 ∧ usablePayloadBytes = 56) := by
  decide

/-- Claim C3, amended: the record is exactly 64 bytes in total; the tag
field is one byte at an 8-byte-aligned offset with no padding between it
and the data array, leaving exactly 63 bytes usable for the name
encoding and value payload combined. -/
theorem record_layout_amended :
    recordSize = 64
    ∧ typeFieldSize = 1
    ∧ tagRegionBytes = 1
    ∧ typeFieldOffset % recordAlignment = 0
    ∧ usablePayloadBytes = 63
    ∧ tagRegionBytes + usablePayloadBytes = recordSize := by
  decide

/-- Claim C2: constructing a record whose encoded name size plus value
byte size exceeds the usable payload bytes fails at construction time
with `OversizedAttribute`; the entire result is the error, so no
partially-initialized record is produced. -/
theorem mkMaterialAttributeData_oversized (name : List Nat)
    (type : MaterialAttributeType) (typeSize : Nat) (value : List Nat)
    (h : usablePayloadBytes < name.length + typeSize) :
    mkMaterialAttributeData name type typeSize value
      = Except.error ConstructError.OversizedAttribute := by
  unfold mkMaterialAttributeData
  rw [if_neg (by omega)]

/-- Witness for C2: a 60-byte name with a 4-byte `Float` value
exceeds the 63 usable bytes and is rejected. -/
theorem mkMaterialAttributeData_oversized_witness :
    usablePayloadBytes < (List.replicate 60 65).length + 4
    ∧ mkMaterialAttributeData (List.replicate 60 65)
        MaterialAttributeType.Float 4 [0, 0, 160, 66]
      = Except.error ConstructError.OversizedAttribute :=
  ⟨by decide,
   mkMaterialAttributeData_oversized (List.replicate 60 65)
     MaterialAttributeType.Float 4 [0, 0, 160, 66] (by decide)⟩

/-- Claim C1: for every supported host type `T` and every value of type
`T` (given by its `sizeof(T)` raw bytes), constructing a record from a
name and the value and then decoding the payload as `T` yields the exact
bytes written at construction (the bit-identical value), whenever the
name-plus-value budget admits the record at all. -/
theorem materialAttributeData_round_trip (T : HostType)
    (name value : List Nat)
    (_hlen : value.length = hostTypeSize T)
    (hfit : name.length + hostTypeSize T ≤ usablePayloadBytes) :
    ∃ d, materialAttributeDataFromString name T value = Except.ok d
      ∧ decodeAs T d = some value := by
  refine ⟨⟨materialAttributeTypeFor T,
    name ++ List.replicate
      (usablePayloadBytes - name.length - hostTypeSize T) 0 ++ value⟩,
    ?_, ?_⟩
  · unfold materialAttributeDataFromString mkMaterialAttributeData
    rw [if_pos hfit]
  · unfold decodeAs
    rw [if_pos rfl]
    congr 1
    show List.drop (usablePayloadBytes - hostTypeSize T)
      (name ++ List.replicate
        (usablePayloadBytes - name.length - hostTypeSize T) 0 ++ value)
      = value
    apply List.drop_left'
    simp only [List.length_append, List.length_replicate]
    omega

/-- Witness for C1: the spec's concrete scenario — the name `Shininess`
with the 4 little-endian bytes of the `Float` `80.0f` round-trips. -/
theorem materialAttributeData_round_trip_witness :
    ([0, 0, 160, 66] : List Nat).length = hostTypeSize HostType.Float
    ∧ (stringBytes "Shininess").length + hostTypeSize HostType.Float
        ≤ usablePayloadBytes
    ∧ ∃ d, materialAttributeDataFromString (stringBytes "Shininess")
          HostType.Float [0, 0, 160, 66] = Except.ok d
        ∧ decodeAs HostType.Float d = some [0, 0, 160, 66] :=
  ⟨by decide, by decide,
   materialAttributeData_round_trip HostType.Float (stringBytes "Shininess")
     [0, 0, 160, 66] (by decide) (by decide)⟩

/-- Claim C6: for every supported host type `T`, name and value, a
record constructed by the public constructor reports `type()` equal to
`materialAttributeTypeFor T` (the record offers no mutating operation,
so it is immutable thereafter). -/
theorem materialAttributeData_type_accessor (name : List Nat)
    (T : HostType) (value : List Nat)
    (hfit : name.length + hostTypeSize T ≤ usablePayloadBytes) :
    (materialAttributeDataFromString name T value).map
        MaterialAttributeData.type
      = Except.ok (materialAttributeTypeFor T) := by
  unfold materialAttributeDataFromString mkMaterialAttributeData
  rw [if_pos hfit]
  rfl

/-- Witness for C6: the `AmbientColor` scenario — a `Vector4` value's
record has `type()` equal to the `Vector4` tag. -/
theorem materialAttributeData_type_accessor_witness :
    (stringBytes "AmbientColor").length + hostTypeSize HostType.Vector4
        ≤ usablePayloadBytes
    ∧ (materialAttributeDataFromString (stringBytes "AmbientColor")
          HostType.Vector4
          [0, 0, 128, 63, 0, 0, 0, 0, 0, 0, 0, 0, 0, 0, 128, 63]).map
        MaterialAttributeData.type
      = Except.ok (materialAttributeTypeFor HostType.Vector4) :=
  ⟨by decide,
   materialAttributeData_type_accessor (stringBytes "AmbientColor")
     HostType.Vector4
     [0, 0, 128, 63, 0, 0, 0, 0, 0, 0, 0, 0, 0, 0, 128, 63] (by decide)⟩

/-- Helper: whenever the private constructor succeeds, the stored tag is
exactly the `type` argument it was given. -/
theorem mkMaterialAttributeData_ok_type {name : List Nat}
    {type : MaterialAttributeType} {typeSize : Nat} {value : List Nat}
    {d : MaterialAttributeData}
    (h : mkMaterialAttributeData name type typeSize value = Except.ok d) :
    d._type = type := by
  unfold mkMaterialAttributeData at h
  split at h
  · injection h with h2
    subst h2
    rfl
  · exact Except.noConfusion h

/-- Claim C10: the two public constructors — one taking a semantic
`MaterialAttribute` name, one taking a string name — delegate to the
same private constructor with the identical tag
`materialAttributeTypeFor T` and the identical size `sizeof(T)`, so for
the same value type both produce a record with the same `type()`. -/
theorem constructors_delegate_same (a : MaterialAttribute)
    (name : List Nat) (T : HostType) (value : List Nat) :
    materialAttributeDataFromSemantic a T value
      = materialAttributeDataFromString
          (stringBytes (materialAttributeName a)) T value
    ∧ ∀ d₁ d₂,
        materialAttributeDataFromSemantic a T value = Except.ok d₁
        → materialAttributeDataFromString name T value = Except.ok d₂
        → d₁.type = d₂.type ∧ d₁.type = materialAttributeTypeFor T := by
  refine ⟨rfl, ?_⟩
  intro d₁ d₂ h₁ h₂
  have e₁ := mkMaterialAttributeData_ok_type h₁
  have e₂ := mkMaterialAttributeData_ok_type h₂
  exact ⟨e₁.trans e₂.symm, e₁⟩

/-- Witness for C10: the semantic name `Shininess` and the string name
`Custom`, both with the bytes of the `Float` `80.0f`, produce records
with the same `Float` tag. -/
theorem constructors_delegate_same_witness :
    materialAttributeDataFromSemantic MaterialAttribute.Shininess
        HostType.Float [0, 0, 160, 66]
      = Except.ok ⟨MaterialAttributeType.Float,
          stringBytes "Shininess" ++ List.replicate 50 0 ++ [0, 0, 160, 66]⟩
    ∧ materialAttributeDataFromString (stringBytes "Custom")
        HostType.Float [0, 0, 160, 66]
      = Except.ok ⟨MaterialAttributeType.Float,
          stringBytes "Custom" ++ List.replicate 53 0 ++ [0, 0, 160, 66]⟩
    ∧ (⟨MaterialAttributeType.Float,
          stringBytes "Shininess" ++ List.replicate 50 0
            ++ [0, 0, 160, 66]⟩ : MaterialAttributeData).type
        = (⟨MaterialAttributeType.Float,
            stringBytes "Custom" ++ List.replicate 53 0
              ++ [0, 0, 160, 66]⟩ : MaterialAttributeData).type
      ∧ (⟨MaterialAttributeType.Float,
          stringBytes "Shininess" ++ List.replicate 50 0
            ++ [0, 0, 160, 66]⟩ : MaterialAttributeData).type
        = materialAttributeTypeFor HostType.Float :=
  ⟨by rfl, by rfl,
   (constructors_delegate_same MaterialAttribute.Shininess
     (stringBytes "Custom") HostType.Float [0, 0, 160, 66]).2
     ⟨MaterialAttributeType.Float,
       stringBytes "Shininess" ++ List.replicate 50 0 ++ [0, 0, 160, 66]⟩
     ⟨MaterialAttributeType.Float,
       stringBytes "Custom" ++ List.replicate 53 0 ++ [0, 0, 160, 66]⟩
     (by rfl) (by rfl)⟩

/-- Claim C8: a material built from a sequence of already-built records
reports a count equal to the sequence's length and returns the records
in the same order under indexed access; nothing depends on names, so
duplicated names are preserved like any others. -/
theorem materialData_order_preserved (rs : List MaterialAttributeData)
    (i : Nat) (h : i < rs.length) :
    (mkMaterialData rs).attributeCount = rs.length
    ∧ (mkMaterialData rs).attribute i = some (rs.get ⟨i, h⟩) := by
  refine ⟨rfl, ?_⟩
  simp [mkMaterialData, MaterialData.attribute, List.get?_eq_get h]

/-- Witness for C8: two records with the same duplicated name `X` and
different payloads come back in insertion order — index 1 yields the
second record. -/
theorem materialData_order_preserved_witness :
    (1 : Nat) < ([⟨MaterialAttributeType.Float,
        stringBytes "X" ++ List.replicate 58 0 ++ [0, 0, 160, 66]⟩,
      ⟨MaterialAttributeType.Float,
        stringBytes "X" ++ List.replicate 58 0 ++ [0, 0, 128, 63]⟩] :
      List MaterialAttributeData).length
    ∧ (mkMaterialData [⟨MaterialAttributeType.Float,
          stringBytes "X" ++ List.replicate 58 0 ++ [0, 0, 160, 66]⟩,
        ⟨MaterialAttributeType.Float,
          stringBytes "X" ++ List.replicate 58 0
            ++ [0, 0, 128, 63]⟩]).attributeCount = 2
    ∧ (mkMaterialData [⟨MaterialAttributeType.Float,
          stringBytes "X" ++ List.replicate 58 0 ++ [0, 0, 160, 66]⟩,
        ⟨MaterialAttributeType.Float,
          stringBytes "X" ++ List.replicate 58 0
            ++ [0, 0, 128, 63]⟩]).attribute 1
      = some ⟨MaterialAttributeType.Float,
          stringBytes "X" ++ List.replicate 58 0 ++ [0, 0, 128, 63]⟩ :=
  ⟨by decide,
   (materialData_order_preserved [⟨MaterialAttributeType.Float,
       stringBytes "X" ++ List.replicate 58 0 ++ [0, 0, 160, 66]⟩,
     ⟨MaterialAttributeType.Float,
       stringBytes "X" ++ List.replicate 58 0 ++ [0, 0, 128, 63]⟩] 1
     (by decide)).1,
   (materialData_order_preserved [⟨MaterialAttributeType.Float,
       stringBytes "X" ++ List.replicate 58 0 ++ [0, 0, 160, 66]⟩,
     ⟨MaterialAttributeType.Float,
       stringBytes "X" ++ List.replicate 58 0 ++ [0, 0, 128, 63]⟩] 1
     (by decide)).2⟩

end Magnum.Trade
